import Mathlib

/-!
Shallow embedding of the admission core of the rate-limiter service
(`src/models/rate_limiter.py`): the sliding-window-log counter
(`SlidingWindowLog`), the global gate and per-tenant queues
(`TenantLoadManager`), and the facade (`DistributedRateLimiter`).

Timestamps (Python `time.time()` floats) are modelled as rationals.
Python dictionaries with a default value (`defaultdict`) are modelled as
total functions together with, where observable, the set of materialized
keys.  Python `int(x)` truncation toward zero is modelled by `pyInt`.
-/

namespace RateLimiterService

/-- Truncation of a rational toward zero, the behaviour of Python `int()`
on a float. -/
def pyInt (x : ℚ) : ℤ :=
  if 0 ≤ x then ⌊x⌋ else ⌈x⌉

/-- `RequestStatus` enum from the source. -/
inductive RequestStatus where
  | PROCESSED
  | QUEUED
  | REJECTED
deriving DecidableEq, Repr

/-- `RateLimitResult` dataclass from the source. -/
structure RateLimitResult where
  allowed : Bool
  remaining_requests : ℤ
  reset_time_seconds : Option ℤ
  status : RequestStatus
deriving DecidableEq, Repr

/-- A sliding-window key `(tenant_id, client_id, action_type)`. -/
abbrev SWKey := String × String × String

/-- State of `SlidingWindowLog`: the `_request_logs` defaultdict, one
timestamp log per key, absent keys reading as the empty log. -/
structure SlidingWindowLog where
  request_logs : SWKey → List ℚ

/-- The fresh `SlidingWindowLog()` with no recorded timestamps. -/
def SlidingWindowLog.init : SlidingWindowLog :=
  { request_logs := fun _ => [] }

/-- `SlidingWindowLog.check_and_consume` (lines 41-97 of
`rate_limiter.py`): prune timestamps at or before
`now - window_duration_seconds` from the head of the key's log, then
admit (appending `now`) when the remaining count is below
`max_requests`, otherwise deny.  `currentTime` stands for the
`time.time()` read. -/
def SlidingWindowLog.check_and_consume (s : SlidingWindowLog)
    (tenant_id client_id action_type : String)
    (max_requests window_duration_seconds : ℤ) (currentTime : ℚ) :
    SlidingWindowLog × RateLimitResult :=
  let key : SWKey := (tenant_id, client_id, action_type)
  let window_start : ℚ := currentTime - (window_duration_seconds : ℚ)
  let request_log := s.request_logs key
  let pruned := request_log.dropWhile (fun ts => ts ≤ window_start)
  let current_count : ℤ := pruned.length
  if current_count < max_requests then
    ({ request_logs := Function.update s.request_logs key (pruned ++ [currentTime]) },
     { allowed := true,
       remaining_requests := max_requests - current_count - 1,
       reset_time_seconds := some (pyInt (currentTime + (window_duration_seconds : ℚ))),
       status := .PROCESSED })
  else
    ({ request_logs := Function.update s.request_logs key pruned },
     { allowed := false,
       remaining_requests := 0,
       reset_time_seconds :=
         some (pyInt (pruned.headD currentTime + (window_duration_seconds : ℚ))),
       status := .PROCESSED })

/-- The record returned by `SlidingWindowLog.get_status`. -/
structure SWStatusRecord where
  tenant_id : String
  client_id : String
  action_type : String
  current_count : ℤ
  max_requests : ℤ
  remaining_requests : ℤ
  window_duration_seconds : ℤ
  timestamps : List ℚ
  window_start : ℚ
  current_time : ℚ
deriving DecidableEq, Repr

/-- `SlidingWindowLog.get_status` (lines 99-131): a read that filters the
key's log to timestamps strictly inside the window and reports counts;
the body performs no write to the log, so the state comes back
unchanged. -/
def SlidingWindowLog.get_status (s : SlidingWindowLog)
    (tenant_id client_id action_type : String)
    (max_requests window_duration_seconds : ℤ) (currentTime : ℚ) :
    SlidingWindowLog × SWStatusRecord :=
  let key : SWKey := (tenant_id, client_id, action_type)
  let window_start : ℚ := currentTime - (window_duration_seconds : ℚ)
  let request_log := s.request_logs key
  let valid_timestamps := request_log.filter (fun ts => window_start < ts)
  let current_count : ℤ := valid_timestamps.length
  (s,
   { tenant_id := tenant_id,
     client_id := client_id,
     action_type := action_type,
     current_count := current_count,
     max_requests := max_requests,
     remaining_requests := max 0 (max_requests - current_count),
     window_duration_seconds := window_duration_seconds,
     timestamps := valid_timestamps,
     window_start := window_start,
     current_time := currentTime })

/-- `QueuedRequest` dataclass from the source.  The `result_callback`
closure is not part of the data here; delivery of a result to the
callback is modelled by `execute_queued_request` returning the result it
passes to the callback. -/
structure QueuedRequest where
  tenant_id : String
  client_id : String
  action_type : String
  max_requests : ℤ
  window_duration_seconds : ℤ
  timestamp : ℚ
deriving DecidableEq, Repr

/-- State of `TenantLoadManager`: the gate counters, the per-tenant
queues, and the shutdown flag.  `_tenant_in_flight` is a `defaultdict`,
modelled as a total function plus the set `tenants_seen` of keys that
have been materialized (every key outside it reads 0). -/
structure TenantLoadManager where
  max_global_concurrent_requests : ℕ
  max_tenant_queue_size : ℕ
  global_in_flight : ℕ
  tenant_in_flight : String → ℕ
  tenants_seen : Finset String
  tenant_queues : String → List QueuedRequest
  shutdown_flag : Bool

/-- A fresh `TenantLoadManager(G, Q)`: zero counters, empty queues, not
shut down. -/
def TenantLoadManager.init (g q : ℕ) : TenantLoadManager :=
  { max_global_concurrent_requests := g,
    max_tenant_queue_size := q,
    global_in_flight := 0,
    tenant_in_flight := fun _ => 0,
    tenants_seen := ∅,
    tenant_queues := fun _ => [],
    shutdown_flag := false }

/-- `TenantLoadManager.acquire_processing_slot` (lines 168-175): under
the global lock, when `global_in_flight < max_global_concurrent_requests`
increment the global counter and the tenant's counter and return `true`;
otherwise change nothing and return `false`.  The `+= 1` on the
defaultdict materializes the tenant's key. -/
def TenantLoadManager.acquire_processing_slot (lm : TenantLoadManager)
    (tenant_id : String) : TenantLoadManager × Bool :=
  if lm.global_in_flight < lm.max_global_concurrent_requests then
    ({ lm with
        global_in_flight := lm.global_in_flight + 1,
        tenant_in_flight :=
          Function.update lm.tenant_in_flight tenant_id
            (lm.tenant_in_flight tenant_id + 1),
        tenants_seen := insert tenant_id lm.tenants_seen }, true)
  else
    (lm, false)

/-- `TenantLoadManager.release_processing_slot` (lines 177-183):
decrement the global counter if positive, and decrement the tenant's
counter if positive (each clamped at 0 independently).  Reading the
defaultdict in the guard materializes the tenant's key either way. -/
def TenantLoadManager.release_processing_slot (lm : TenantLoadManager)
    (tenant_id : String) : TenantLoadManager :=
  { lm with
      global_in_flight :=
        if 0 < lm.global_in_flight then lm.global_in_flight - 1
        else lm.global_in_flight,
      tenant_in_flight :=
        if 0 < lm.tenant_in_flight tenant_id then
          Function.update lm.tenant_in_flight tenant_id
            (lm.tenant_in_flight tenant_id - 1)
        else lm.tenant_in_flight,
      tenants_seen := insert tenant_id lm.tenants_seen }

/-- `TenantLoadManager.queue_request` (lines 185-197): under the
tenant's lock, reject when the tenant's queue already holds
`max_tenant_queue_size` entries, otherwise append the request at the
tail and accept. -/
def TenantLoadManager.queue_request (lm : TenantLoadManager)
    (queued_request : QueuedRequest) : TenantLoadManager × Bool :=
  let tenant_id := queued_request.tenant_id
  let tenant_queue := lm.tenant_queues tenant_id
  if lm.max_tenant_queue_size ≤ tenant_queue.length then
    (lm, false)
  else
    ({ lm with
        tenant_queues :=
          Function.update lm.tenant_queues tenant_id
            (tenant_queue ++ [queued_request]) }, true)

/-- The dequeue step of the scheduler loop
`TenantLoadManager._process_queued_requests` (lines 214-215): once the
tenant's queue is non-empty and a slot was acquired, `popleft` the
oldest entry.  The gate interaction is handled by
`acquire_processing_slot`; this is the queue effect alone. -/
def TenantLoadManager.dequeue_front (lm : TenantLoadManager)
    (tenant_id : String) : TenantLoadManager × Option QueuedRequest :=
  match lm.tenant_queues tenant_id with
  | [] => (lm, none)
  | r :: rest =>
    ({ lm with tenant_queues := Function.update lm.tenant_queues tenant_id rest },
     some r)

/-- `TenantLoadManager._execute_queued_request` (lines 234-250): the
worker fabricates a `RateLimitResult` with `allowed=True` and
`remaining_requests=0` — it never consults the sliding-window log —
passes it to the request's callback (modelled as the returned result),
and releases the slot in the `finally` block.  `currentTime` stands for
the `time.time()` read used for the reset time. -/
def TenantLoadManager.execute_queued_request (lm : TenantLoadManager)
    (queued_request : QueuedRequest) (currentTime : ℚ) :
    TenantLoadManager × RateLimitResult :=
  let result : RateLimitResult :=
    { allowed := true,
      remaining_requests := 0,
      reset_time_seconds :=
        some (pyInt (currentTime + (queued_request.window_duration_seconds : ℚ))),
      status := .PROCESSED }
  (lm.release_processing_slot queued_request.tenant_id, result)

/-- `TenantLoadManager.shutdown` (lines 264-266): set the shutdown flag;
nothing else changes. -/
def TenantLoadManager.shutdown (lm : TenantLoadManager) : TenantLoadManager :=
  { lm with shutdown_flag := true }

/-- State of `DistributedRateLimiter`: the sliding window and the load
manager.  (`_pending_results` is written through callbacks but never
read by the source; it is not needed by any claim.) -/
structure DistributedRateLimiter where
  sliding_window : SlidingWindowLog
  load_manager : TenantLoadManager

/-- A fresh `DistributedRateLimiter(G, Q)`. -/
def DistributedRateLimiter.init (g q : ℕ) : DistributedRateLimiter :=
  { sliding_window := SlidingWindowLog.init,
    load_manager := TenantLoadManager.init g q }

/-- `DistributedRateLimiter.check_and_consume` (lines 283-342): try to
acquire a gate slot; on success run the sliding window and release the
slot in the `finally` block, returning the sliding-window result
unchanged; on failure build a `QueuedRequest` and try to queue it,
returning `QUEUED` on success and `REJECTED` when the queue is full. -/
def DistributedRateLimiter.check_and_consume (s : DistributedRateLimiter)
    (tenant_id client_id action_type : String)
    (max_requests window_duration_seconds : ℤ) (currentTime : ℚ) :
    DistributedRateLimiter × RateLimitResult :=
  let acq := s.load_manager.acquire_processing_slot tenant_id
  if acq.2 then
    let swl := s.sliding_window.check_and_consume tenant_id client_id action_type
      max_requests window_duration_seconds currentTime
    ({ sliding_window := swl.1,
       load_manager := acq.1.release_processing_slot tenant_id }, swl.2)
  else
    let queued_request : QueuedRequest :=
      { tenant_id := tenant_id,
        client_id := client_id,
        action_type := action_type,
        max_requests := max_requests,
        window_duration_seconds := window_duration_seconds,
        timestamp := currentTime }
    let qr := acq.1.queue_request queued_request
    if qr.2 then
      ({ s with load_manager := qr.1 },
       { allowed := false,
         remaining_requests := 0,
         reset_time_seconds := none,
         status := .QUEUED })
    else
      ({ s with load_manager := qr.1 },
       { allowed := false,
         remaining_requests := 0,
         reset_time_seconds := none,
         status := .REJECTED })

/-- `DistributedRateLimiter.shutdown` (lines 360-362): delegate to the
load manager's shutdown. -/
def DistributedRateLimiter.shutdown (s : DistributedRateLimiter) :
    DistributedRateLimiter :=
  { s with load_manager := s.load_manager.shutdown }

/-! ## Helper lemmas -/

theorem pyInt_of_nonneg {x : ℚ} (hx : 0 ≤ x) : pyInt x = ⌊x⌋ :=
  if_pos hx

/-- On a log sorted in non-decreasing order, dropping the stale prefix
(timestamps at or before `b`) leaves exactly the timestamps strictly
after `b`. -/
theorem dropWhile_le_eq_filter_of_sorted (b : ℚ) :
    ∀ l : List ℚ, l.Sorted (· ≤ ·) →
      l.dropWhile (fun ts => ts ≤ b) = l.filter (fun ts => b < ts)
  | [], _ => rfl
  | a :: l, h => by
    rcases List.sorted_cons.mp h with ⟨ha, hl⟩
    by_cases hab : a ≤ b
    · rw [List.dropWhile_cons_of_pos (by simpa using hab),
        List.filter_cons_of_neg (by simpa using hab)]
      exact dropWhile_le_eq_filter_of_sorted b l hl
    · rw [List.dropWhile_cons_of_neg (by simpa using hab),
        List.filter_cons_of_pos (by simpa using not_le.mp hab)]
      have hfl : l.filter (fun ts => b < ts) = l :=
        List.filter_eq_self.mpr fun x hx => by
          simpa using lt_of_lt_of_le (not_le.mp hab) (ha x hx)
      rw [hfl]

/-- The head of the log left by pruning is strictly inside the window. -/
theorem headD_dropWhile_gt (b d : ℚ) (l : List ℚ)
    (hne : l.dropWhile (fun ts => ts ≤ b) ≠ []) :
    b < (l.dropWhile (fun ts => ts ≤ b)).headD d := by
  induction l with
  | nil => simp at hne
  | cons a l ih =>
    by_cases hab : a ≤ b
    · rw [List.dropWhile_cons_of_pos (by simpa using hab)] at hne ⊢
      exact ih hne
    · rw [List.dropWhile_cons_of_neg (by simpa using hab)]
      simpa using not_le.mp hab

/-! ## Claims about the sliding window -/

/-- C3:  Allowed path of `SlidingWindowLog.check_and_consume`: when
the in-window count after pruning is strictly below `max_requests`, the
call appends the current time to the key's log and returns
`allowed=true`, `remaining_requests = max_requests - count - 1`,
`reset_time_seconds = floor (now + window_duration)`,
`status=PROCESSED`. -/
theorem swl_allowed_path (s : SlidingWindowLog)
    (tenant_id client_id action_type : String)
    (max_requests window_duration_seconds : ℤ) (now : ℚ)
    (hnow : 0 ≤ now) (hw : 0 ≤ window_duration_seconds)
    (hcount :
      (((s.request_logs (tenant_id, client_id, action_type)).dropWhile
          (fun ts => ts ≤ now - (window_duration_seconds : ℚ))).length : ℤ)
        < max_requests) :
    let key : SWKey := (tenant_id, client_id, action_type)
    let pruned := (s.request_logs key).dropWhile
      (fun ts => ts ≤ now - (window_duration_seconds : ℚ))
    let out := s.check_and_consume tenant_id client_id action_type
      max_requests window_duration_seconds now
    out.2.allowed = true ∧
    out.2.remaining_requests = max_requests - pruned.length - 1 ∧
    out.2.reset_time_seconds = some ⌊now + (window_duration_seconds : ℚ)⌋ ∧
    out.2.status = RequestStatus.PROCESSED ∧
    out.1.request_logs key = pruned ++ [now] := by
  intro key pruned out
  have hq : (0 : ℚ) ≤ (window_duration_seconds : ℚ) := by exact_mod_cast hw
  have hpair : out =
      ({ request_logs := Function.update s.request_logs key (pruned ++ [now]) },
       { allowed := true,
         remaining_requests := max_requests - (pruned.length : ℤ) - 1,
         reset_time_seconds := some (pyInt (now + (window_duration_seconds : ℚ))),
         status := RequestStatus.PROCESSED }) := by
    simp only [out, key, pruned, SlidingWindowLog.check_and_consume]
    rw [if_pos hcount]
  rw [hpair]
  refine ⟨rfl, rfl, ?_, rfl, ?_⟩
  · rw [pyInt_of_nonneg (add_nonneg hnow hq)]
  · exact Function.update_same _ _ _

/-- Witness for `swl_allowed_path` at a fresh log: the first call with
policy `(2, 60)` at time 0 is allowed. -/
theorem swl_allowed_path_witness :
    (SlidingWindowLog.init.check_and_consume "t" "c" "a" 2 60 0).2.allowed
      = true :=
  (swl_allowed_path SlidingWindowLog.init "t" "c" "a" 2 60 0
    (by norm_num) (by norm_num) (by decide)).1

/-- C4:  Denied path and window boundary of
`SlidingWindowLog.check_and_consume`: on a sorted log, pruning keeps
exactly the timestamps strictly greater than
`window_start = now - window_duration` (so a timestamp equal to
`window_start` is stale), and when the in-window count reaches
`max_requests` the call returns `allowed=false`,
`remaining_requests=0`,
`reset_time_seconds = floor (oldest in-window timestamp +
window_duration)`, `status=PROCESSED`, leaving the pruned log without
appending. -/
theorem swl_denied_path (s : SlidingWindowLog)
    (tenant_id client_id action_type : String)
    (max_requests window_duration_seconds : ℤ) (now : ℚ)
    (hsorted : (s.request_logs (tenant_id, client_id, action_type)).Sorted (· ≤ ·))
    (hnow : 0 ≤ now) (hmax : 0 < max_requests)
    (hcount :
      max_requests ≤
        (((s.request_logs (tenant_id, client_id, action_type)).dropWhile
          (fun ts => ts ≤ now - (window_duration_seconds : ℚ))).length : ℤ)) :
    let key : SWKey := (tenant_id, client_id, action_type)
    let window_start : ℚ := now - (window_duration_seconds : ℚ)
    let pruned := (s.request_logs key).dropWhile (fun ts => ts ≤ window_start)
    let out := s.check_and_consume tenant_id client_id action_type
      max_requests window_duration_seconds now
    pruned = (s.request_logs key).filter (fun ts => window_start < ts) ∧
    (∀ ts ∈ pruned, window_start < ts) ∧
    out.2.allowed = false ∧
    out.2.remaining_requests = 0 ∧
    out.2.status = RequestStatus.PROCESSED ∧
    out.2.reset_time_seconds =
      some ⌊pruned.headD now + (window_duration_seconds : ℚ)⌋ ∧
    out.1.request_logs key = pruned := by
  intro key window_start pruned out
  have hcount' : max_requests ≤ (pruned.length : ℤ) := hcount
  have hfilter : pruned = (s.request_logs key).filter (fun ts => window_start < ts) :=
    dropWhile_le_eq_filter_of_sorted window_start _ hsorted
  have hmem : ∀ ts ∈ pruned, window_start < ts := by
    intro ts hts
    rw [hfilter] at hts
    simpa using (List.mem_filter.mp hts).2
  have hne : pruned ≠ [] := by
    intro hnil
    rw [hnil] at hcount'
    simp at hcount'
    omega
  have hhead : window_start < pruned.headD now :=
    headD_dropWhile_gt window_start now _ hne
  have hws : window_start = now - (window_duration_seconds : ℚ) := rfl
  have hresetpos : (0 : ℚ) ≤ pruned.headD now + (window_duration_seconds : ℚ) := by
    rw [hws] at hhead
    linarith
  have hpair : out =
      ({ request_logs := Function.update s.request_logs key pruned },
       { allowed := false,
         remaining_requests := 0,
         reset_time_seconds :=
           some (pyInt (pruned.headD now + (window_duration_seconds : ℚ))),
         status := RequestStatus.PROCESSED }) := by
    simp only [out, key, window_start, pruned, SlidingWindowLog.check_and_consume]
    rw [if_neg (not_lt.mpr hcount)]
  rw [hpair]
  refine ⟨hfilter, hmem, rfl, rfl, rfl, ?_, ?_⟩
  · rw [pyInt_of_nonneg hresetpos]
  · exact Function.update_same _ _ _

/-- Witness for `swl_denied_path`: after one admit at time 0 with policy
`(1, 60)`, a second call at time 1 is denied. -/
theorem swl_denied_path_witness :
    ((SlidingWindowLog.init.check_and_consume "t" "c" "a" 1 60 0).1.check_and_consume
      "t" "c" "a" 1 60 1).2.allowed = false :=
  (swl_denied_path (SlidingWindowLog.init.check_and_consume "t" "c" "a" 1 60 0).1
    "t" "c" "a" 1 60 1 (by decide) (by norm_num) (by norm_num)
    (by norm_num [SlidingWindowLog.check_and_consume, SlidingWindowLog.init,
      List.dropWhile])).2.2.1

/-- C9:  `SlidingWindowLog.get_status` is read-only and consistent:
it returns the state unchanged, on a sorted log its `current_count`
equals the pruned in-window count a `check_and_consume` at the same
instant would compute, and a second `get_status` with no intervening
`check_and_consume` returns the identical record. -/
theorem swl_get_status_spec (s : SlidingWindowLog)
    (tenant_id client_id action_type : String)
    (max_requests window_duration_seconds : ℤ) (now : ℚ)
    (hsorted : (s.request_logs (tenant_id, client_id, action_type)).Sorted (· ≤ ·)) :
    let key : SWKey := (tenant_id, client_id, action_type)
    let out := s.get_status tenant_id client_id action_type max_requests
      window_duration_seconds now
    out.1 = s ∧
    out.2.current_count =
      (((s.request_logs key).dropWhile
        (fun ts => ts ≤ now - (window_duration_seconds : ℚ))).length : ℤ) ∧
    (out.1.get_status tenant_id client_id action_type max_requests
      window_duration_seconds now).2 = out.2 := by
  intro key out
  refine ⟨rfl, ?_, rfl⟩
  have hcc : out.2.current_count =
      (((s.request_logs key).filter
        (fun ts => now - (window_duration_seconds : ℚ) < ts)).length : ℤ) := rfl
  rw [hcc, dropWhile_le_eq_filter_of_sorted _ _ hsorted]

/-- Witness for `swl_get_status_spec`: after one admit at time 0 with
policy `(1, 60)`, `get_status` at time 1 reports one in-window
request. -/
theorem swl_get_status_spec_witness :
    ((SlidingWindowLog.init.check_and_consume "t" "c" "a" 1 60 0).1.get_status
      "t" "c" "a" 1 60 1).2.current_count = 1 := by
  have h := (swl_get_status_spec
    (SlidingWindowLog.init.check_and_consume "t" "c" "a" 1 60 0).1
    "t" "c" "a" 1 60 1 (by decide)).2.1
  rw [h]
  norm_num [SlidingWindowLog.check_and_consume, SlidingWindowLog.init,
    List.dropWhile]

/-- C10:  Frame effect of `SlidingWindowLog.check_and_consume`: a
call on key `K` never changes the log of any other key, and a denied
call changes `K`'s log only by removing the stale prefix (timestamps at
or before `now - window_duration`) — it appends nothing, so the
resulting log is a sublist of the old one. -/
theorem swl_check_frame (s : SlidingWindowLog)
    (tenant_id client_id action_type : String)
    (max_requests window_duration_seconds : ℤ) (now : ℚ) :
    let key : SWKey := (tenant_id, client_id, action_type)
    let window_start : ℚ := now - (window_duration_seconds : ℚ)
    let out := s.check_and_consume tenant_id client_id action_type max_requests
      window_duration_seconds now
    (∀ k, k ≠ key → out.1.request_logs k = s.request_logs k) ∧
    (out.2.allowed = false →
      out.1.request_logs key =
        (s.request_logs key).dropWhile (fun ts => ts ≤ window_start) ∧
      (s.request_logs key).takeWhile (fun ts => ts ≤ window_start) ++
        out.1.request_logs key = s.request_logs key ∧
      (∀ ts ∈ (s.request_logs key).takeWhile (fun ts => ts ≤ window_start),
        ts ≤ window_start) ∧
      List.Sublist (out.1.request_logs key) (s.request_logs key)) := by
  intro key window_start out
  by_cases hc :
    ((((s.request_logs key).dropWhile
      (fun ts => ts ≤ window_start)).length : ℤ) < max_requests)
  · have hpair : out =
        ({ request_logs := Function.update s.request_logs key
            (((s.request_logs key).dropWhile (fun ts => ts ≤ window_start)) ++ [now]) },
         { allowed := true,
           remaining_requests := max_requests -
             ((((s.request_logs key).dropWhile
               (fun ts => ts ≤ window_start)).length : ℤ)) - 1,
           reset_time_seconds :=
             some (pyInt (now + (window_duration_seconds : ℚ))),
           status := RequestStatus.PROCESSED }) := by
      simp only [out, key, window_start, SlidingWindowLog.check_and_consume]
      rw [if_pos hc]
    rw [hpair]
    refine ⟨fun k hk => Function.update_noteq hk _ _, fun hfalse => ?_⟩
    simp at hfalse
  · have hpair : out =
        ({ request_logs := Function.update s.request_logs key
            ((s.request_logs key).dropWhile (fun ts => ts ≤ window_start)) },
         { allowed := false,
           remaining_requests := 0,
           reset_time_seconds :=
             some (pyInt ((((s.request_logs key).dropWhile
               (fun ts => ts ≤ window_start)).headD now) +
               (window_duration_seconds : ℚ))),
           status := RequestStatus.PROCESSED }) := by
      simp only [out, key, window_start, SlidingWindowLog.check_and_consume]
      rw [if_neg hc]
    rw [hpair]
    refine ⟨fun k hk => Function.update_noteq hk _ _, fun _ => ⟨?_, ?_, ?_, ?_⟩⟩
    · exact Function.update_same _ _ _
    · simp only [Function.update_same]
      exact List.takeWhile_append_dropWhile _ _
    · exact fun ts hts => by simpa using List.mem_takeWhile_imp hts
    · simp only [Function.update_same]
      exact List.dropWhile_sublist _

/-- Witness for `swl_check_frame`: a denied call at time 1 on the key
`(t, c, a)` leaves the log of `(x, c, a)` unchanged and leaves the
`(t, c, a)` log equal to its pruned form without appending. -/
theorem swl_check_frame_witness :
    (((SlidingWindowLog.init.check_and_consume "t" "c" "a" 1 60 0).1.check_and_consume
        "t" "c" "a" 1 60 1).1.request_logs ("x", "c", "a") =
      (SlidingWindowLog.init.check_and_consume "t" "c" "a" 1 60 0).1.request_logs
        ("x", "c", "a")) ∧
    ((SlidingWindowLog.init.check_and_consume "t" "c" "a" 1 60 0).1.check_and_consume
        "t" "c" "a" 1 60 1).1.request_logs ("t", "c", "a") =
      ((SlidingWindowLog.init.check_and_consume "t" "c" "a" 1 60 0).1.request_logs
        ("t", "c", "a")).dropWhile (fun ts => ts ≤ 1 - ((60 : ℤ) : ℚ)) := by
  have h := swl_check_frame
    (SlidingWindowLog.init.check_and_consume "t" "c" "a" 1 60 0).1
    "t" "c" "a" 1 60 1
  refine ⟨h.1 ("x", "c", "a") (by decide), ?_⟩
  exact (h.2 (by norm_num [SlidingWindowLog.check_and_consume,
    SlidingWindowLog.init, List.dropWhile])).1

/-! ## Claims about the facade -/

/-- A successful acquire followed by a release of the same tenant
restores both gate counters and touches no queue. -/
theorem release_after_acquire (lm : TenantLoadManager) (t : String)
    (h : lm.global_in_flight < lm.max_global_concurrent_requests) :
    ((lm.acquire_processing_slot t).1.release_processing_slot t).global_in_flight
        = lm.global_in_flight ∧
    ((lm.acquire_processing_slot t).1.release_processing_slot t).tenant_in_flight
        = lm.tenant_in_flight ∧
    ((lm.acquire_processing_slot t).1.release_processing_slot t).tenant_queues
        = lm.tenant_queues := by
  have ha : lm.acquire_processing_slot t =
      ({ lm with
          global_in_flight := lm.global_in_flight + 1,
          tenant_in_flight := Function.update lm.tenant_in_flight t
            (lm.tenant_in_flight t + 1),
          tenants_seen := insert t lm.tenants_seen }, true) := by
    simp only [TenantLoadManager.acquire_processing_slot]
    rw [if_pos h]
  rw [ha]
  refine ⟨?_, ?_, rfl⟩
  · simp [TenantLoadManager.release_processing_slot]
  · simp [TenantLoadManager.release_processing_slot, Function.update_same,
      Function.update_idem, Function.update_eq_self]

/-- C5:  Facade dispatch of `DistributedRateLimiter.check_and_consume`:
(a) when a gate slot is acquired the call returns the
`SlidingWindowLog` result unchanged and the slot is released (both gate
counters come back to their old values and no queue changes); (b) when
the gate is full and the tenant's queue is below its bound the call
appends a `QueuedRequest` carrying the key, the policy and the
timestamp, and returns `(allowed=false, remaining=0, reset=none,
status=QUEUED)` without consulting the sliding window; (c) when both
fail it returns the same with `status=REJECTED`, changing nothing. -/
theorem facade_dispatch (s : DistributedRateLimiter)
    (tenant_id client_id action_type : String)
    (max_requests window_duration_seconds : ℤ) (now : ℚ) :
    let out := s.check_and_consume tenant_id client_id action_type max_requests
      window_duration_seconds now
    let swl := s.sliding_window.check_and_consume tenant_id client_id action_type
      max_requests window_duration_seconds now
    (s.load_manager.global_in_flight < s.load_manager.max_global_concurrent_requests →
      out.2 = swl.2 ∧
      out.1.sliding_window = swl.1 ∧
      out.1.load_manager.global_in_flight = s.load_manager.global_in_flight ∧
      out.1.load_manager.tenant_in_flight = s.load_manager.tenant_in_flight ∧
      out.1.load_manager.tenant_queues = s.load_manager.tenant_queues) ∧
    (¬ s.load_manager.global_in_flight < s.load_manager.max_global_concurrent_requests →
      (s.load_manager.tenant_queues tenant_id).length <
        s.load_manager.max_tenant_queue_size →
      out.2 = { allowed := false, remaining_requests := 0,
                reset_time_seconds := none, status := RequestStatus.QUEUED } ∧
      out.1.sliding_window = s.sliding_window ∧
      out.1.load_manager.tenant_queues tenant_id =
        s.load_manager.tenant_queues tenant_id ++
          [{ tenant_id := tenant_id, client_id := client_id,
             action_type := action_type, max_requests := max_requests,
             window_duration_seconds := window_duration_seconds,
             timestamp := now }] ∧
      out.1.load_manager.global_in_flight = s.load_manager.global_in_flight ∧
      out.1.load_manager.tenant_in_flight = s.load_manager.tenant_in_flight) ∧
    (¬ s.load_manager.global_in_flight < s.load_manager.max_global_concurrent_requests →
      s.load_manager.max_tenant_queue_size ≤
        (s.load_manager.tenant_queues tenant_id).length →
      out.2 = { allowed := false, remaining_requests := 0,
                reset_time_seconds := none, status := RequestStatus.REJECTED } ∧
      out.1 = s) := by
  intro out swl
  by_cases hacq :
    s.load_manager.global_in_flight < s.load_manager.max_global_concurrent_requests
  · refine ⟨fun _ => ?_, fun hn => absurd hacq hn, fun hn => absurd hacq hn⟩
    have h2 : (s.load_manager.acquire_processing_slot tenant_id).2 = true := by
      simp only [TenantLoadManager.acquire_processing_slot]
      rw [if_pos hacq]
    have hout : out =
        ({ sliding_window := swl.1,
           load_manager :=
             (s.load_manager.acquire_processing_slot tenant_id).1.release_processing_slot
               tenant_id }, swl.2) := by
      simp only [out, swl, DistributedRateLimiter.check_and_consume, h2, if_true]
    rw [hout]
    obtain ⟨hg, ht, hq⟩ := release_after_acquire s.load_manager tenant_id hacq
    exact ⟨rfl, rfl, hg, ht, hq⟩
  · have ha : s.load_manager.acquire_processing_slot tenant_id =
        (s.load_manager, false) := by
      simp only [TenantLoadManager.acquire_processing_slot]
      rw [if_neg hacq]
    refine ⟨fun hy => absurd hy hacq, fun _ hlen => ?_, fun _ hlen => ?_⟩
    · have hq2 : ¬ s.load_manager.max_tenant_queue_size ≤
          (s.load_manager.tenant_queues tenant_id).length := not_le.mpr hlen
      have hout : out =
          ({ s with load_manager :=
              { s.load_manager with
                  tenant_queues :=
                    Function.update s.load_manager.tenant_queues tenant_id
                      (s.load_manager.tenant_queues tenant_id ++
                        [{ tenant_id := tenant_id, client_id := client_id,
                           action_type := action_type,
                           max_requests := max_requests,
                           window_duration_seconds := window_duration_seconds,
                           timestamp := now }]) } },
           { allowed := false, remaining_requests := 0,
             reset_time_seconds := none, status := RequestStatus.QUEUED }) := by
        simp only [out, DistributedRateLimiter.check_and_consume, ha,
          TenantLoadManager.queue_request]
        rw [if_neg hq2]
        simp
      rw [hout]
      exact ⟨rfl, rfl, Function.update_same _ _ _, rfl, rfl⟩
    · have hout : out =
          ({ s with load_manager := s.load_manager },
           { allowed := false, remaining_requests := 0,
             reset_time_seconds := none, status := RequestStatus.REJECTED }) := by
        simp only [out, DistributedRateLimiter.check_and_consume, ha,
          TenantLoadManager.queue_request]
        rw [if_pos hlen]
        simp
      rw [hout]
      exact ⟨rfl, rfl⟩

/-- Witness for `facade_dispatch`: on a fresh limiter the gate is free,
so the call is processed and the in-flight counter is back to 0
afterwards. -/
theorem facade_dispatch_witness :
    ((DistributedRateLimiter.init 100 50).check_and_consume "t" "c" "a" 1 60
        0).2.status = RequestStatus.PROCESSED ∧
    ((DistributedRateLimiter.init 100 50).check_and_consume "t" "c" "a" 1 60
        0).1.load_manager.global_in_flight = 0 := by
  have h := (facade_dispatch (DistributedRateLimiter.init 100 50) "t" "c" "a"
    1 60 0).1 (by norm_num [DistributedRateLimiter.init, TenantLoadManager.init])
  refine ⟨?_, ?_⟩
  · rw [h.1]
    decide
  · rw [h.2.2.1]
    rfl

/-! ## Claims about the gate -/

/-- Gate operations observable on the load manager. -/
inductive GateOp where
  | acquire (tenant_id : String)
  | release (tenant_id : String)

/-- Run a sequence of gate operations through the source's
`acquire_processing_slot` / `release_processing_slot`. -/
def runGateOps : TenantLoadManager → List GateOp → TenantLoadManager
  | lm, [] => lm
  | lm, GateOp.acquire t :: ops => runGateOps (lm.acquire_processing_slot t).1 ops
  | lm, GateOp.release t :: ops => runGateOps (lm.release_processing_slot t) ops

/-- A trace is well formed when every release is performed by a holder:
the releasing tenant has a slot in flight at that point.  In the source
every release is paired with an earlier successful acquire for the same
tenant (the facade's `finally` block and the queued-request worker). -/
def WfGateTrace : TenantLoadManager → List GateOp → Prop
  | _, [] => True
  | lm, GateOp.acquire t :: ops => WfGateTrace (lm.acquire_processing_slot t).1 ops
  | lm, GateOp.release t :: ops =>
      0 < lm.tenant_in_flight t ∧ WfGateTrace (lm.release_processing_slot t) ops

/-- The gate invariant: the global counter is within the budget, the
per-tenant counters vanish off the materialized key set, and their sum
equals the global counter. -/
def GateInv (lm : TenantLoadManager) : Prop :=
  lm.global_in_flight ≤ lm.max_global_concurrent_requests ∧
  (∀ t, t ∉ lm.tenants_seen → lm.tenant_in_flight t = 0) ∧
  ∑ u ∈ lm.tenants_seen, lm.tenant_in_flight u = lm.global_in_flight

theorem gateInv_acquire (lm : TenantLoadManager) (t : String) (h : GateInv lm) :
    GateInv (lm.acquire_processing_slot t).1 := by
  obtain ⟨hG, hz, hsum⟩ := h
  by_cases hc : lm.global_in_flight < lm.max_global_concurrent_requests
  · have ha : lm.acquire_processing_slot t =
        ({ lm with
            global_in_flight := lm.global_in_flight + 1,
            tenant_in_flight := Function.update lm.tenant_in_flight t
              (lm.tenant_in_flight t + 1),
            tenants_seen := insert t lm.tenants_seen }, true) := by
      simp only [TenantLoadManager.acquire_processing_slot]
      rw [if_pos hc]
    rw [ha]
    refine ⟨?_, ?_, ?_⟩
    · show lm.global_in_flight + 1 ≤ lm.max_global_concurrent_requests
      omega
    · show ∀ u, u ∉ insert t lm.tenants_seen →
        Function.update lm.tenant_in_flight t (lm.tenant_in_flight t + 1) u = 0
      intro u hu
      simp only [Finset.mem_insert, not_or] at hu
      rw [Function.update_noteq hu.1]
      exact hz u hu.2
    · show ∑ u ∈ insert t lm.tenants_seen,
        Function.update lm.tenant_in_flight t (lm.tenant_in_flight t + 1) u =
          lm.global_in_flight + 1
      rw [Finset.sum_update_of_mem (Finset.mem_insert_self t _),
        Finset.sdiff_singleton_eq_erase, Finset.erase_insert_eq_erase]
      by_cases hts : t ∈ lm.tenants_seen
      · have hdecomp := Finset.add_sum_erase lm.tenants_seen lm.tenant_in_flight hts
        omega
      · rw [Finset.erase_eq_of_not_mem hts]
        have h0 := hz t hts
        omega
  · have ha : lm.acquire_processing_slot t = (lm, false) := by
      simp only [TenantLoadManager.acquire_processing_slot]
      rw [if_neg hc]
    rw [ha]
    exact ⟨hG, hz, hsum⟩

theorem gateInv_release (lm : TenantLoadManager) (t : String) (h : GateInv lm)
    (hpos : 0 < lm.tenant_in_flight t) :
    GateInv (lm.release_processing_slot t) := by
  obtain ⟨hG, hz, hsum⟩ := h
  have hts : t ∈ lm.tenants_seen := by
    by_contra hmem
    rw [hz t hmem] at hpos
    exact absurd hpos (lt_irrefl 0)
  have hle : lm.tenant_in_flight t ≤ ∑ u ∈ lm.tenants_seen, lm.tenant_in_flight u :=
    Finset.single_le_sum (fun u _ => Nat.zero_le _) hts
  have hgpos : 0 < lm.global_in_flight := by omega
  have hr : lm.release_processing_slot t =
      { lm with
          global_in_flight := lm.global_in_flight - 1,
          tenant_in_flight := Function.update lm.tenant_in_flight t
            (lm.tenant_in_flight t - 1),
          tenants_seen := insert t lm.tenants_seen } := by
    simp only [TenantLoadManager.release_processing_slot]
    rw [if_pos hgpos, if_pos hpos]
  rw [hr]
  refine ⟨?_, ?_, ?_⟩
  · show lm.global_in_flight - 1 ≤ lm.max_global_concurrent_requests
    omega
  · show ∀ u, u ∉ insert t lm.tenants_seen →
      Function.update lm.tenant_in_flight t (lm.tenant_in_flight t - 1) u = 0
    intro u hu
    simp only [Finset.mem_insert, not_or] at hu
    rw [Function.update_noteq hu.1]
    exact hz u hu.2
  · show ∑ u ∈ insert t lm.tenants_seen,
      Function.update lm.tenant_in_flight t (lm.tenant_in_flight t - 1) u =
        lm.global_in_flight - 1
    rw [Finset.insert_eq_of_mem hts, Finset.sum_update_of_mem hts,
      Finset.sdiff_singleton_eq_erase]
    have hdecomp := Finset.add_sum_erase lm.tenants_seen lm.tenant_in_flight hts
    omega

theorem gateInv_runGateOps (ops : List GateOp) :
    ∀ lm : TenantLoadManager, GateInv lm → WfGateTrace lm ops →
      GateInv (runGateOps lm ops) := by
  induction ops with
  | nil =>
    intro lm h _
    exact h
  | cons op ops ih =>
    intro lm h hwf
    cases op with
    | acquire t => exact ih _ (gateInv_acquire lm t h) hwf
    | release t => exact ih _ (gateInv_release lm t h hwf.1) hwf.2

/-- C6:  Gate invariant: the fresh manager satisfies the invariant
`global_in_flight ≤ G` with `Σ tenant_in_flight = global_in_flight`
(non-negativity is by the ℕ counters), every well-formed trace of
acquires and releases preserves it, `acquire_processing_slot` succeeds
exactly when `global_in_flight < G` and then increments both counters
(leaving other tenants alone, and leaving the state unchanged on
failure), and `release_processing_slot` decrements both counters
clamped at 0. -/
theorem gate_invariant_spec (g q : ℕ) (lm : TenantLoadManager) (t : String)
    (ops : List GateOp) :
    GateInv (TenantLoadManager.init g q) ∧
    (GateInv lm → WfGateTrace lm ops → GateInv (runGateOps lm ops)) ∧
    ((lm.acquire_processing_slot t).2 = true ↔
      lm.global_in_flight < lm.max_global_concurrent_requests) ∧
    ((lm.acquire_processing_slot t).2 = true →
      (lm.acquire_processing_slot t).1.global_in_flight =
        lm.global_in_flight + 1 ∧
      (lm.acquire_processing_slot t).1.tenant_in_flight t =
        lm.tenant_in_flight t + 1 ∧
      ∀ u, u ≠ t →
        (lm.acquire_processing_slot t).1.tenant_in_flight u =
          lm.tenant_in_flight u) ∧
    ((lm.acquire_processing_slot t).2 = false →
      (lm.acquire_processing_slot t).1 = lm) ∧
    (lm.release_processing_slot t).global_in_flight =
      lm.global_in_flight - 1 ∧
    (lm.release_processing_slot t).tenant_in_flight t =
      lm.tenant_in_flight t - 1 ∧
    (∀ u, u ≠ t →
      (lm.release_processing_slot t).tenant_in_flight u =
        lm.tenant_in_flight u) := by
  have hneg : ¬ lm.global_in_flight < lm.max_global_concurrent_requests →
      lm.acquire_processing_slot t = (lm, false) := fun hc => by
    simp only [TenantLoadManager.acquire_processing_slot]
    rw [if_neg hc]
  have hpos : lm.global_in_flight < lm.max_global_concurrent_requests →
      lm.acquire_processing_slot t =
        ({ lm with
            global_in_flight := lm.global_in_flight + 1,
            tenant_in_flight := Function.update lm.tenant_in_flight t
              (lm.tenant_in_flight t + 1),
            tenants_seen := insert t lm.tenants_seen }, true) := fun hc => by
    simp only [TenantLoadManager.acquire_processing_slot]
    rw [if_pos hc]
  refine ⟨⟨Nat.zero_le _, fun _ _ => rfl, Finset.sum_empty⟩,
    gateInv_runGateOps ops lm, ?_, ?_, ?_, ?_, ?_, ?_⟩
  · constructor
    · intro h2
      by_contra hc
      rw [hneg hc] at h2
      exact Bool.false_ne_true h2
    · intro hc
      rw [hpos hc]
  · intro h2
    have hc : lm.global_in_flight < lm.max_global_concurrent_requests := by
      by_contra hc
      rw [hneg hc] at h2
      exact Bool.false_ne_true h2
    rw [hpos hc]
    exact ⟨rfl, Function.update_same _ _ _,
      fun u hu => Function.update_noteq hu _ _⟩
  · intro h2
    by_cases hc : lm.global_in_flight < lm.max_global_concurrent_requests
    · rw [hpos hc] at h2
      exact absurd h2 (by simp)
    · rw [hneg hc]
  · simp only [TenantLoadManager.release_processing_slot]
    split_ifs with hg <;> omega
  · simp only [TenantLoadManager.release_processing_slot]
    split_ifs with hp
    · exact Function.update_same _ _ _
    · omega
  · intro u hu
    simp only [TenantLoadManager.release_processing_slot]
    split_ifs with hp
    · exact Function.update_noteq hu _ _
    · rfl

/-- Witness for `gate_invariant_spec`: with budget `G = 2` the first
acquire succeeds, and the invariant holds after an acquire-release
trace. -/
theorem gate_invariant_spec_witness :
    ((TenantLoadManager.init 2 5).acquire_processing_slot "t").2 = true ∧
    GateInv (runGateOps (TenantLoadManager.init 2 5)
      [GateOp.acquire "t", GateOp.release "t"]) := by
  have h := gate_invariant_spec 2 5 (TenantLoadManager.init 2 5) "t"
    [GateOp.acquire "t", GateOp.release "t"]
  refine ⟨h.2.2.1.mpr (by norm_num [TenantLoadManager.init]), h.2.1 h.1 ?_⟩
  refine ⟨?_, trivial⟩
  decide

/-! ## Claims about the per-tenant queues -/

/-- Queue operations: an enqueue through `queue_request` (for any
tenant) or a scheduler dequeue (`popleft`) of the traced tenant. -/
inductive QueueOp where
  | enq (req : QueuedRequest)
  | deq

/-- Trace state for the queue claims: the load manager plus, for the
traced tenant, the list of requests dequeued so far and the list of
requests accepted into that tenant's queue so far. -/
structure QueueTraceState where
  lm : TenantLoadManager
  processed : List QueuedRequest
  accepted : List QueuedRequest

def queueStep (tenant_id : String) (st : QueueTraceState) :
    QueueOp → QueueTraceState
  | QueueOp.enq req =>
    let out := st.lm.queue_request req
    { lm := out.1,
      processed := st.processed,
      accepted :=
        if out.2 = true ∧ req.tenant_id = tenant_id then st.accepted ++ [req]
        else st.accepted }
  | QueueOp.deq =>
    let out := st.lm.dequeue_front tenant_id
    { lm := out.1,
      processed :=
        match out.2 with
        | some r => st.processed ++ [r]
        | none => st.processed,
      accepted := st.accepted }

def runQueueOps (tenant_id : String) (st : QueueTraceState)
    (ops : List QueueOp) : QueueTraceState :=
  ops.foldl (queueStep tenant_id) st

/-- Queue invariant for a traced tenant: the bound is the construction
parameter, the queue length never exceeds it, and what was dequeued
followed by what is still queued is exactly what was accepted, in
order. -/
def QueueInv (tenant_id : String) (q : ℕ) (st : QueueTraceState) : Prop :=
  st.lm.max_tenant_queue_size = q ∧
  (st.lm.tenant_queues tenant_id).length ≤ q ∧
  st.processed ++ st.lm.tenant_queues tenant_id = st.accepted

theorem queueInv_step (t : String) (q : ℕ) (st : QueueTraceState)
    (op : QueueOp) (h : QueueInv t q st) : QueueInv t q (queueStep t st op) := by
  obtain ⟨hq, hlen, hfifo⟩ := h
  cases op with
  | enq req =>
    by_cases hfull :
      st.lm.max_tenant_queue_size ≤ (st.lm.tenant_queues req.tenant_id).length
    · have hreq : st.lm.queue_request req = (st.lm, false) := by
        simp only [TenantLoadManager.queue_request]
        rw [if_pos hfull]
      refine ⟨?_, ?_, ?_⟩ <;> simp [queueStep, hreq, hq, hlen, hfifo]
    · have hreq : st.lm.queue_request req =
          ({ st.lm with
              tenant_queues := Function.update st.lm.tenant_queues req.tenant_id
                (st.lm.tenant_queues req.tenant_id ++ [req]) }, true) := by
        simp only [TenantLoadManager.queue_request]
        rw [if_neg hfull]
      by_cases hteq : req.tenant_id = t
      · subst hteq
        refine ⟨?_, ?_, ?_⟩
        · simp [queueStep, hreq, hq]
        · simp [queueStep, hreq, Function.update_same]
          omega
        · simp [queueStep, hreq, Function.update_same]
          rw [← List.append_assoc, hfifo]
      · refine ⟨?_, ?_, ?_⟩ <;>
          simp [queueStep, hreq, Function.update_noteq (Ne.symm hteq),
            hteq, hq, hlen, hfifo]
  | deq =>
    cases hqv : st.lm.tenant_queues t with
    | nil =>
      have hd : st.lm.dequeue_front t = (st.lm, none) := by
        simp only [TenantLoadManager.dequeue_front, hqv]
      refine ⟨?_, ?_, ?_⟩ <;> simp [queueStep, hd, hq, hlen, hfifo]
    | cons r rest =>
      have hd : st.lm.dequeue_front t =
          ({ st.lm with
              tenant_queues := Function.update st.lm.tenant_queues t rest },
           some r) := by
        simp only [TenantLoadManager.dequeue_front, hqv]
      have hlen' : rest.length + 1 = (st.lm.tenant_queues t).length := by
        rw [hqv]
        simp
      refine ⟨?_, ?_, ?_⟩
      · simp [queueStep, hd, hq]
      · simp [queueStep, hd, Function.update_same]
        omega
      · simp [queueStep, hd, Function.update_same]
        rw [← hqv]
        exact hfifo

theorem queueInv_runQueueOps (t : String) (q : ℕ) (ops : List QueueOp) :
    ∀ st : QueueTraceState, QueueInv t q st →
      QueueInv t q (runQueueOps t st ops) := by
  induction ops with
  | nil =>
    intro st h
    exact h
  | cons op ops ih =>
    intro st h
    exact ih _ (queueInv_step t q st op h)

/-- C7:  Queue bound and FIFO order: `queue_request` accepts exactly
when the tenant's queue is strictly below `max_tenant_queue_size`,
appending at the tail, and leaves everything unchanged when it rejects
(no other tenant's queue is ever touched); along any trace of enqueues
and scheduler dequeues from a fresh manager the traced tenant's queue
never exceeds `Q` and the dequeued requests followed by the still-queued
ones are exactly the accepted ones in order. -/
theorem queue_bound_fifo (g q : ℕ) (t : String) (lm : TenantLoadManager)
    (req : QueuedRequest) (ops : List QueueOp) :
    ((lm.queue_request req).2 = true ↔
      (lm.tenant_queues req.tenant_id).length < lm.max_tenant_queue_size) ∧
    ((lm.queue_request req).2 = true →
      (lm.queue_request req).1.tenant_queues req.tenant_id =
        lm.tenant_queues req.tenant_id ++ [req]) ∧
    ((lm.queue_request req).2 = false → (lm.queue_request req).1 = lm) ∧
    (∀ u, u ≠ req.tenant_id →
      (lm.queue_request req).1.tenant_queues u = lm.tenant_queues u) ∧
    ((runQueueOps t
        { lm := TenantLoadManager.init g q, processed := [], accepted := [] }
        ops).lm.tenant_queues t).length ≤ q ∧
    (runQueueOps t
        { lm := TenantLoadManager.init g q, processed := [], accepted := [] }
        ops).processed ++
      (runQueueOps t
        { lm := TenantLoadManager.init g q, processed := [], accepted := [] }
        ops).lm.tenant_queues t =
      (runQueueOps t
        { lm := TenantLoadManager.init g q, processed := [], accepted := [] }
        ops).accepted := by
  have hneg : ¬ (lm.tenant_queues req.tenant_id).length <
        lm.max_tenant_queue_size →
      lm.queue_request req = (lm, false) := fun hc => by
    simp only [TenantLoadManager.queue_request]
    rw [if_pos (not_lt.mp hc)]
  have hpos : (lm.tenant_queues req.tenant_id).length <
        lm.max_tenant_queue_size →
      lm.queue_request req =
        ({ lm with
            tenant_queues := Function.update lm.tenant_queues req.tenant_id
              (lm.tenant_queues req.tenant_id ++ [req]) }, true) := fun hc => by
    simp only [TenantLoadManager.queue_request]
    rw [if_neg (not_le.mpr hc)]
  have hinv := queueInv_runQueueOps t q ops
    { lm := TenantLoadManager.init g q, processed := [], accepted := [] }
    ⟨rfl, Nat.zero_le _, rfl⟩
  refine ⟨?_, ?_, ?_, ?_, hinv.2.1, hinv.2.2⟩
  · constructor
    · intro h2
      by_contra hc
      rw [hneg hc] at h2
      exact Bool.false_ne_true h2
    · intro hc
      rw [hpos hc]
  · intro h2
    have hc : (lm.tenant_queues req.tenant_id).length <
        lm.max_tenant_queue_size := by
      by_contra hc
      rw [hneg hc] at h2
      exact Bool.false_ne_true h2
    rw [hpos hc]
    exact Function.update_same _ _ _
  · intro h2
    by_cases hc : (lm.tenant_queues req.tenant_id).length <
        lm.max_tenant_queue_size
    · rw [hpos hc] at h2
      exact absurd h2 (by simp)
    · rw [hneg hc]
  · intro u hu
    by_cases hc : (lm.tenant_queues req.tenant_id).length <
        lm.max_tenant_queue_size
    · rw [hpos hc]
      exact Function.update_noteq hu _ _
    · rw [hneg hc]

/-- Witness for `queue_bound_fifo`: on a fresh manager with `Q = 1` an
enqueue is accepted and lands at the tail of the tenant's queue. -/
theorem queue_bound_fifo_witness :
    ((TenantLoadManager.init 2 1).queue_request
      { tenant_id := "t", client_id := "c", action_type := "a",
        max_requests := 1, window_duration_seconds := 60,
        timestamp := 0 }).1.tenant_queues "t" =
      [{ tenant_id := "t", client_id := "c", action_type := "a",
         max_requests := 1, window_duration_seconds := 60,
         timestamp := 0 }] := by
  have h := queue_bound_fifo 2 1 "t" (TenantLoadManager.init 2 1)
    { tenant_id := "t", client_id := "c", action_type := "a",
      max_requests := 1, window_duration_seconds := 60, timestamp := 0 } []
  exact h.2.1 (h.1.mpr (by norm_num [TenantLoadManager.init]))

/-! ## The queued-request worker and shutdown -/

/-- The number of `(timestamp, result)` pairs whose result is
`PROCESSED` with `allowed=true` and whose timestamp lies in the window
`(window_start, window_start + window_len]`. -/
def allowedProcessedCount (results : List (ℚ × RateLimitResult))
    (window_start window_len : ℚ) : ℕ :=
  (results.filter (fun p =>
    p.2.allowed = true ∧ p.2.status = RequestStatus.PROCESSED ∧
    window_start < p.1 ∧ p.1 ≤ window_start + window_len)).length

/-- C1:  The admission bound fails for queued requests: the worker
`_execute_queued_request` fabricates `allowed=true, status=PROCESSED`
for every queued request without ever consulting the sliding-window
log (its type does not even take the log).  Concretely, with policy
`N = 1, W = 100`: a direct call at time 0 is admitted, a second request
for the same key queued while the gate was held is executed by the
worker at time 1 and also reports `allowed=true, PROCESSED`, so a
window of length 100 holds 2 > N = 1 allowed `PROCESSED` results. -/
theorem admission_bound_violated_for_queued :
    (∀ (lm : TenantLoadManager) (r : QueuedRequest) (now : ℚ),
      (lm.execute_queued_request r now).2.allowed = true ∧
      (lm.execute_queued_request r now).2.status = RequestStatus.PROCESSED) ∧
    ((DistributedRateLimiter.init 1 50).check_and_consume "t" "c" "a" 1 100
      0).2.allowed = true ∧
    ((DistributedRateLimiter.init 1 50).check_and_consume "t" "c" "a" 1 100
      0).2.status = RequestStatus.PROCESSED ∧
    allowedProcessedCount
      [(0, ((DistributedRateLimiter.init 1 50).check_and_consume "t" "c" "a"
        1 100 0).2),
       (1, ((((DistributedRateLimiter.init 1 50).check_and_consume "t" "c" "a"
          1 100 0).1.load_manager.acquire_processing_slot
            "t").1.execute_queued_request
          { tenant_id := "t", client_id := "c", action_type := "a",
            max_requests := 1, window_duration_seconds := 100,
            timestamp := 0 } 1).2)]
      (-50) 100 = 2 ∧
    1 < allowedProcessedCount
      [(0, ((DistributedRateLimiter.init 1 50).check_and_consume "t" "c" "a"
        1 100 0).2),
       (1, ((((DistributedRateLimiter.init 1 50).check_and_consume "t" "c" "a"
          1 100 0).1.load_manager.acquire_processing_slot
            "t").1.execute_queued_request
          { tenant_id := "t", client_id := "c", action_type := "a",
            max_requests := 1, window_duration_seconds := 100,
            timestamp := 0 } 1).2)]
      (-50) 100 := by
  have hcount : allowedProcessedCount
      [(0, ((DistributedRateLimiter.init 1 50).check_and_consume "t" "c" "a"
        1 100 0).2),
       (1, ((((DistributedRateLimiter.init 1 50).check_and_consume "t" "c" "a"
          1 100 0).1.load_manager.acquire_processing_slot
            "t").1.execute_queued_request
          { tenant_id := "t", client_id := "c", action_type := "a",
            max_requests := 1, window_duration_seconds := 100,
            timestamp := 0 } 1).2)]
      (-50) 100 = 2 := by
    norm_num [allowedProcessedCount, DistributedRateLimiter.init,
      DistributedRateLimiter.check_and_consume, TenantLoadManager.init,
      TenantLoadManager.acquire_processing_slot,
      TenantLoadManager.execute_queued_request,
      TenantLoadManager.release_processing_slot,
      SlidingWindowLog.check_and_consume, SlidingWindowLog.init,
      List.filter, List.dropWhile]
  exact ⟨fun _ _ _ => ⟨rfl, rfl⟩, rfl, rfl, hcount, by rw [hcount]; norm_num⟩

/-- C2:  The queued-request worker diverges from the sliding window:
`_execute_queued_request` never calls `SlidingWindowLog.check_and_consume`
— with the key already at its limit (one admit at time 0, policy
`(1, 60)`), a direct SWL call at time 1 is denied, yet the worker
reports `allowed=true`.  The slot release in the `finally` block does
happen: both gate counters drop back to 0. -/
theorem queued_worker_skips_rate_check :
    ((((TenantLoadManager.init 1 50).acquire_processing_slot
        "t").1.execute_queued_request
      { tenant_id := "t", client_id := "c", action_type := "a",
        max_requests := 1, window_duration_seconds := 60,
        timestamp := 0 } 1).2.allowed = true) ∧
    ((((TenantLoadManager.init 1 50).acquire_processing_slot
        "t").1.execute_queued_request
      { tenant_id := "t", client_id := "c", action_type := "a",
        max_requests := 1, window_duration_seconds := 60,
        timestamp := 0 } 1).2.status = RequestStatus.PROCESSED) ∧
    (((SlidingWindowLog.init.check_and_consume "t" "c" "a" 1 60
        0).1.check_and_consume "t" "c" "a" 1 60 1).2.allowed = false) ∧
    ((((TenantLoadManager.init 1 50).acquire_processing_slot
        "t").1.execute_queued_request
      { tenant_id := "t", client_id := "c", action_type := "a",
        max_requests := 1, window_duration_seconds := 60,
        timestamp := 0 } 1).1.global_in_flight = 0) ∧
    ((((TenantLoadManager.init 1 50).acquire_processing_slot
        "t").1.execute_queued_request
      { tenant_id := "t", client_id := "c", action_type := "a",
        max_requests := 1, window_duration_seconds := 60,
        timestamp := 0 } 1).1.tenant_in_flight "t" = 0) := by
  have hd : ((SlidingWindowLog.init.check_and_consume "t" "c" "a" 1 60
      0).1.check_and_consume "t" "c" "a" 1 60 1).2.allowed = false := by
    norm_num [SlidingWindowLog.check_and_consume, SlidingWindowLog.init,
      List.dropWhile]
  refine ⟨rfl, rfl, hd, rfl, ?_⟩
  simp [TenantLoadManager.execute_queued_request,
      TenantLoadManager.release_processing_slot,
      TenantLoadManager.acquire_processing_slot, TenantLoadManager.init,
      Function.update_same]

/-- C8:  Shutdown is not enforced: after `shutdown()` only the
scheduler flag is set; a subsequent `check_and_consume` still acquires a
slot, is processed and admitted, and its timestamp is recorded in the
sliding-window log — it does not return `REJECTED`. -/
theorem shutdown_not_enforced :
    ((DistributedRateLimiter.init 100 50).shutdown).load_manager.shutdown_flag
      = true ∧
    (((DistributedRateLimiter.init 100 50).shutdown).check_and_consume
      "t" "c" "a" 1 60 0).2.status = RequestStatus.PROCESSED ∧
    (((DistributedRateLimiter.init 100 50).shutdown).check_and_consume
      "t" "c" "a" 1 60 0).2.allowed = true ∧
    (((DistributedRateLimiter.init 100 50).shutdown).check_and_consume
      "t" "c" "a" 1 60 0).1.sliding_window.request_logs ("t", "c", "a")
      = [0] := by
  exact ⟨rfl, rfl, rfl, rfl⟩

end RateLimiterService
